import Mathlib

/-!
Shallow embedding of the AWS-perimeter-guard association-resolution engine.

The definitions below are translated from the Python source:
  src/domain/value_objects/resource_type.py
  src/domain/entities/web_acl.py
  src/domain/entities/resource.py
  src/domain/entities/scan_result.py
  src/adapters/outbound/boto3_aws_client.py
  src/application/scanner_service.py

Python strings are modelled as Lean `String`; the Python `str.split`,
`in` (substring) and `startswith` operations are reimplemented over the
code-point list (`String.data`), matching Python's left-to-right
non-overlapping split semantics. Python dicts used as association maps
are modelled as cons-lists with first-match lookup (a later insert
shadows an earlier binding, exactly like dict assignment as far as
lookup is concerned); the CloudFront origins map, whose absent keys are
read with `.get(domain, [])`, is modelled as a total function defaulting
to `[]`. Network calls (`list_resources`, ALB DNS resolution) are
oracle parameters. Float percentages are modelled as exact rationals.
-/

/-! ## Python string operations -/

/-- Substring containment, the Python `sub in s` test on code-point lists. -/
def containsSub (pat : List Char) : List Char → Bool
  | [] => pat.isEmpty
  | a :: rest => pat.isPrefixOf (a :: rest) || containsSub pat rest

/-- Python `s.split(sep)` on code-point lists (left-to-right,
non-overlapping occurrences; only called with a non-empty separator).
`fuel` bounds the recursion; callers pass the list length. -/
def splitSubAux (pat : List Char) : Nat → List Char → List (List Char)
  | _, [] => [[]]
  | 0, l => [l]
  | Nat.succ fuel, a :: rest =>
    if !pat.isEmpty && pat.isPrefixOf (a :: rest) then
      [] :: splitSubAux pat fuel ((a :: rest).drop pat.length)
    else
      match splitSubAux pat fuel rest with
      | [] => [[a]]
      | b :: t => (a :: b) :: t

/-- Python `s.split(sep)` for strings. -/
def pySplit (s sep : String) : List String :=
  (splitSubAux sep.data s.data.length s.data).map String.mk

/-- Python `sub in s` for strings. -/
def pyContains (s sub : String) : Bool :=
  containsSub sub.data s.data

/-- Python `s.startswith(pat)` for strings. -/
def pyStartsWith (s pat : String) : Bool :=
  pat.data.isPrefixOf s.data

/-! ## Data model (src/domain) -/

/-- `ResourceType` enumeration (resource_type.py). -/
inductive ResourceType where
  | ALB
  | CLOUDFRONT
  | API_GATEWAY_REST
  | API_GATEWAY_HTTP
  | APPSYNC
  | COGNITO
  | APP_RUNNER
  | VERIFIED_ACCESS
deriving DecidableEq, Repr

/-- The string value of each `ResourceType` enum member. -/
def ResourceType.value : ResourceType → String
  | .ALB => "APPLICATION_LOAD_BALANCER"
  | .CLOUDFRONT => "CLOUDFRONT_DISTRIBUTION"
  | .API_GATEWAY_REST => "API_GATEWAY_REST_API"
  | .API_GATEWAY_HTTP => "API_GATEWAY_HTTP_API"
  | .APPSYNC => "APPSYNC_GRAPHQL_API"
  | .COGNITO => "COGNITO_USER_POOL"
  | .APP_RUNNER => "APP_RUNNER_SERVICE"
  | .VERIFIED_ACCESS => "VERIFIED_ACCESS_INSTANCE"

/-- `WebACL` entity (web_acl.py). -/
structure WebACL where
  arn : String
  name : String
  id : String
  scope : String
  region : String
  description : Option String := none
  managed_by_firewall_manager : Bool := false
deriving DecidableEq, Repr

/-- `Resource` entity (resource.py). `tags` and `scanned_at` are carried
for fidelity; timestamps are opaque strings supplied by the caller. -/
structure Resource where
  arn : String
  resource_type : ResourceType
  region : String
  account_id : String
  name : Option String := none
  web_acl : Option WebACL := none
  fronted_by_resource_arn : Option String := none
  fronted_by_waf : Option WebACL := none
  fronted_by_notes : Option String := none
  is_public : Bool := false
  tags : List (String × String) := []
  scanned_at : Option String := none
deriving DecidableEq, Repr

/-- `Resource.has_waf` (resource.py line 32). -/
def Resource.has_waf (r : Resource) : Bool :=
  r.web_acl.isSome

/-- `Resource.is_compliant` (resource.py lines 44-71), branch for branch. -/
def Resource.is_compliant (r : Resource) : Bool :=
  if r.has_waf then true
  else if r.fronted_by_waf.isSome then true
  else if r.resource_type = ResourceType.CLOUDFRONT then false
  else if r.resource_type = ResourceType.ALB && r.is_public then false
  else if r.resource_type = ResourceType.API_GATEWAY_REST && r.is_public then false
  else if r.resource_type = ResourceType.API_GATEWAY_HTTP then true
  else true

/-- `Resource.get_compliance_status` (resource.py lines 73-84). -/
def Resource.get_compliance_status (r : Resource) : String :=
  if r.has_waf then "COMPLIANT"
  else if r.fronted_by_waf.isSome then "COMPLIANT_FRONTED_BY_WAF"
  else if !r.is_compliant then "NON_COMPLIANT"
  else "COMPLIANT_NO_WAF_REQUIRED"

/-- Reference compliance evaluator, written from the specification text
(spec §4.5): direct policy → COMPLIANT; else fronted-by policy →
COMPLIANT_FRONTED_BY_WAF; else NON_COMPLIANT for a CDN distribution, a
publicly exposed load balancer, or a publicly exposed REST gateway;
else COMPLIANT_NO_WAF_REQUIRED. -/
def complianceStatusRef (r : Resource) : String :=
  if r.web_acl.isSome then "COMPLIANT"
  else if r.fronted_by_waf.isSome then "COMPLIANT_FRONTED_BY_WAF"
  else if r.resource_type = ResourceType.CLOUDFRONT
      || (r.resource_type = ResourceType.ALB && r.is_public)
      || (r.resource_type = ResourceType.API_GATEWAY_REST && r.is_public)
    then "NON_COMPLIANT"
  else "COMPLIANT_NO_WAF_REQUIRED"

/-- Structured error record appended by `ScanResult.add_error`
(scan_result.py lines 32-39). -/
structure ErrorRecord where
  region : String
  resource_type : Option String
  message : String
  timestamp : String
deriving DecidableEq, Repr

/-- `ScanResult` aggregate (scan_result.py). -/
structure ScanResult where
  account_id : String
  regions_scanned : List String := []
  scan_id : String := ""
  scan_started_at : Option String := none
  scan_completed_at : Option String := none
  resources : List Resource := []
  errors : List ErrorRecord := []
deriving DecidableEq, Repr

/-- `ScanResult.add_resource` (scan_result.py lines 27-30): stamps the
resource and appends it. `now` stands for `datetime.utcnow()`. -/
def ScanResult.add_resource (s : ScanResult) (now : String) (r : Resource) : ScanResult :=
  { s with resources := s.resources ++ [{ r with scanned_at := some now }] }

/-- `ScanResult.add_error` (scan_result.py lines 32-39). -/
def ScanResult.add_error (s : ScanResult) (region : String) (error_message : String)
    (resource_type : Option String) (now : String) : ScanResult :=
  { s with errors := s.errors ++ [⟨region, resource_type, error_message, now⟩] }

/-- `ScanResult.total_resources`. -/
def ScanResult.total_resources (s : ScanResult) : Nat :=
  s.resources.length

/-- `ScanResult.resources_with_waf`. -/
def ScanResult.resources_with_waf (s : ScanResult) : Nat :=
  s.resources.countP (fun r => r.has_waf)

/-- `ScanResult.compliant_resources`. -/
def ScanResult.compliant_resources (s : ScanResult) : Nat :=
  s.resources.countP (fun r => r.is_compliant)

/-- `ScanResult.get_compliance_rate` (scan_result.py lines 72-76),
with the float arithmetic modelled exactly over ℚ. -/
def ScanResult.get_compliance_rate (s : ScanResult) : ℚ :=
  if s.total_resources = 0 then 100
  else ((s.compliant_resources : ℚ) / (s.total_resources : ℚ)) * 100

/-- `ScanResult.get_waf_coverage_rate` (scan_result.py lines 78-82). -/
def ScanResult.get_waf_coverage_rate (s : ScanResult) : ℚ :=
  if s.total_resources = 0 then 0
  else ((s.resources_with_waf : ℚ) / (s.total_resources : ℚ)) * 100

/-! ## Association index builder (boto3_aws_client.py, get_waf_associations_map) -/

/-- Dict-as-a-cons-list lookup: first binding wins, so consing a new
binding shadows an older one exactly like a Python dict assignment. -/
def amLookup : List (String × WebACL) → String → Option WebACL
  | [], _ => none
  | (k, v) :: rest, key => if k = key then some v else amLookup rest key

/-- The parent (API-level) ARN of a stage ARN:
`resource_arn.split('/stages/')[0]` (boto3_aws_client.py line 393). -/
def stageParent (resource_arn : String) : String :=
  (pySplit resource_arn "/stages/").headD ""

/-- Processing of one `(resource_arn, acl)` pair of a regional WebACL
(boto3_aws_client.py lines 386-399): a REST-API stage ARN gets its
stage-level binding unconditionally and an API-level binding only when
that key is still absent; every other ARN gets a plain binding. -/
def processAssociation (m : List (String × WebACL)) (resource_arn : String)
    (acl : WebACL) : List (String × WebACL) :=
  if pyContains resource_arn "/restapis/" && pyContains resource_arn "/stages/" then
    if (amLookup ((resource_arn, acl) :: m) (stageParent resource_arn)).isNone then
      (stageParent resource_arn, acl) :: (resource_arn, acl) :: m
    else
      (resource_arn, acl) :: m
  else
    (resource_arn, acl) :: m

/-- `get_waf_associations_map` (boto3_aws_client.py lines 358-401).
The network enumeration is abstracted into its outputs: the flattened
`(resource_arn, acl)` pairs of the CloudFront pass (lines 377-380) and
of the regional passes over all regions in order (lines 383-399). -/
def get_waf_associations_map (cloudfrontPairs regionalPairs : List (String × WebACL)) :
    List (String × WebACL) :=
  regionalPairs.foldl (fun m e => processAssociation m e.1 e.2)
    (cloudfrontPairs.foldl (fun m e => (e.1, e.2) :: m) [])

/-! ## WAF ARN parser (boto3_aws_client.py, _parse_waf_arn) -/

/-- `_parse_waf_arn` (boto3_aws_client.py lines 693-727). The Python
`IndexError` raised by `waf_arn.split(":")[5]` (or `[3]`) and caught by
the surrounding handler is modelled by the `Option.get?` misses
returning `none`. -/
def parse_waf_arn (waf_arn : String) : Option WebACL :=
  let parts := pySplit waf_arn "/"
  if 3 ≤ parts.length then
    match (pySplit waf_arn ":").get? 5 with
    | none => none
    | some arnScopePart =>
      match (pySplit waf_arn ":").get? 3 with
      | none => none
      | some region =>
        some { arn := waf_arn
             , name := parts.getD (parts.length - 2) ""
             , id := parts.getLastD ""
             , scope := if pyStartsWith arnScopePart "global" then "CLOUDFRONT" else "REGIONAL"
             , region := region }
  else none

/-! ## Origin index builder (boto3_aws_client.py, get_cloudfront_origins_map) -/

/-- One entry of the CloudFront origins map (the dict appended at
boto3_aws_client.py lines 627-632). -/
structure OriginEntry where
  cloudfront_arn : String
  cloudfront_id : String
  cloudfront_domain : String
  web_acl : Option WebACL
deriving DecidableEq, Repr

/-- The origins map, read downstream with `.get(domain, [])`: modelled
as a total function defaulting to `[]`. -/
def OriginsMap : Type := String → List OriginEntry

/-- A CloudFront distribution as consumed by the origins-map builder:
id, distribution domain name, raw `WebACLId` string from the
distribution config (empty when unset), and configured origin domains. -/
structure DistSummary where
  dist_id : String
  dist_domain : String
  web_acl_id : String
  origins : List String
deriving DecidableEq, Repr

/-- The S3-origin test of boto3_aws_client.py line 621:
`'.s3.' in domain or '.s3-' in domain`. -/
def isS3Origin (domain : String) : Bool :=
  pyContains domain ".s3." || pyContains domain ".s3-"

/-- Processing of a single origin domain of one distribution
(boto3_aws_client.py lines 617-632): skip S3 origins, otherwise append
an entry to the domain's list. -/
def addOrigin (account_id dist_id dist_domain : String) (web_acl : Option WebACL)
    (m : OriginsMap) (domain : String) : OriginsMap :=
  if isS3Origin domain then m
  else fun k =>
    if k = domain then
      m domain ++ [{ cloudfront_arn := "arn:aws:cloudfront::" ++ account_id ++ ":distribution/" ++ dist_id
                   , cloudfront_id := dist_id
                   , cloudfront_domain := dist_domain
                   , web_acl := web_acl }]
    else m k

/-- Processing of one distribution (boto3_aws_client.py lines 600-632):
parse its WebACL (empty `WebACLId` means none), then fold its origins. -/
def processDistribution (account_id : String) (m : OriginsMap) (d : DistSummary) :
    OriginsMap :=
  let web_acl := if d.web_acl_id ≠ "" then parse_waf_arn d.web_acl_id else none
  d.origins.foldl (addOrigin account_id d.dist_id d.dist_domain web_acl) m

/-- `get_cloudfront_origins_map` (boto3_aws_client.py lines 565-640),
with the distribution listing abstracted into its output list. -/
def get_cloudfront_origins_map (account_id : String) (dists : List DistSummary) :
    OriginsMap :=
  dists.foldl (processDistribution account_id) (fun _ => [])

/-! ## Hostname deriver (boto3_aws_client.py, match_resource_to_origin) -/

/-- `match_resource_to_origin` (boto3_aws_client.py lines 642-671).
`albDns` abstracts `_get_alb_dns_name` (the `describe_load_balancers`
call, `none` on failure). -/
def match_resource_to_origin (albDns : String → String → Option String)
    (r : Resource) : Option String :=
  if r.resource_type = ResourceType.API_GATEWAY_HTTP then
    some ((pySplit r.arn "/apis/").getLastD "" ++ ".execute-api." ++ r.region ++ ".amazonaws.com")
  else if r.resource_type = ResourceType.API_GATEWAY_REST then
    some ((pySplit r.arn "/restapis/").getLastD "" ++ ".execute-api." ++ r.region ++ ".amazonaws.com")
  else if r.resource_type = ResourceType.ALB then
    albDns r.arn r.region
  else
    none

/-- Reference hostname deriver, written from the specification text
(spec §4.3) and the claim wording: HTTP-style and REST-style gateway
APIs map to `{apiId}.execute-api.{region}.amazonaws.com` with the apiId
taken after the `/apis/` (resp. `/restapis/`) marker; a load balancer
uses the out-of-band DNS lookup; every other type yields `none`. -/
def deriveHostnameRef (albDns : String → String → Option String)
    (r : Resource) : Option String :=
  match r.resource_type with
  | ResourceType.API_GATEWAY_HTTP =>
      some ((pySplit r.arn "/apis/").getLastD "" ++ ".execute-api." ++ r.region ++ ".amazonaws.com")
  | ResourceType.API_GATEWAY_REST =>
      some ((pySplit r.arn "/restapis/").getLastD "" ++ ".execute-api." ++ r.region ++ ".amazonaws.com")
  | ResourceType.ALB => albDns r.arn r.region
  | _ => none

/-! ## Scanner service (scanner_service.py) -/

/-- The resource types eligible for fronted-by enrichment
(scanner_service.py lines 210-214). -/
def canBeFronted (t : ResourceType) : Bool :=
  t = ResourceType.API_GATEWAY_HTTP || t = ResourceType.API_GATEWAY_REST
    || t = ResourceType.ALB

/-- The fronted-by note string built at scanner_service.py lines 237-240. -/
def frontedByNote (cf_arn waf_name : String) : String :=
  "Fronted by CloudFront Distribution " ++ cf_arn ++ " with WAF " ++ waf_name

/-- Body of the per-resource loop of `_enrich_fronted_by_relationships`
(scanner_service.py lines 208-246). Python falsiness of the origin
domain (`if not origin_domain`) covers both `None` and the empty
string; `find?` is the `for ... if ... break` search for the first
entry whose `web_acl` is truthy. -/
def enrichFrontedBy (albDns : String → String → Option String)
    (origins_map : OriginsMap) (r : Resource) : Resource :=
  if !canBeFronted r.resource_type then r
  else if r.web_acl.isSome then r
  else
    match match_resource_to_origin albDns r with
    | none => r
    | some origin_domain =>
      if origin_domain = "" then r
      else
        let cloudfront_dists := origins_map origin_domain
        if cloudfront_dists.isEmpty then r
        else
          match cloudfront_dists.find? (fun e => e.web_acl.isSome) with
          | none => r
          | some cf =>
            { r with
              fronted_by_resource_arn := some cf.cloudfront_arn
              fronted_by_waf := cf.web_acl
              fronted_by_notes :=
                some (frontedByNote cf.cloudfront_arn
                  ((cf.web_acl.map (fun w => w.name)).getD "")) }

/-- `_enrich_fronted_by_relationships` over the whole resource list
(scanner_service.py lines 191-248); the in-place mutation of each list
element is modelled as a map. -/
def enrich_fronted_by_relationships (albDns : String → String → Option String)
    (origins_map : OriginsMap) (s : ScanResult) : ScanResult :=
  { s with resources := s.resources.map (enrichFrontedBy albDns origins_map) }

/-- `_scan_resource_type` (scanner_service.py lines 156-189). `listRes`
abstracts `aws_client.list_resources`, returning either the enumerated
resources or the message of the raised exception. -/
def scan_resource_type (listRes : ResourceType → String → Except String (List Resource))
    (waf_map : List (String × WebACL)) (now : String) (s : ScanResult)
    (region : String) (resource_type : ResourceType) : ScanResult :=
  if resource_type = ResourceType.CLOUDFRONT && region ≠ "us-east-1" then s
  else
    match listRes resource_type region with
    | Except.ok resources =>
        resources.foldl (fun acc r =>
          let r2 :=
            if r.resource_type ≠ ResourceType.CLOUDFRONT
                && (amLookup waf_map r.arn).isSome then
              { r with web_acl := amLookup waf_map r.arn }
            else r
          acc.add_resource now r2) s
    | Except.error e =>
        s.add_error region e (some resource_type.value) now

/-- `_scan_region` (scanner_service.py lines 138-154): every configured
resource type of one region, in order. -/
def scan_region (listRes : ResourceType → String → Except String (List Resource))
    (waf_map : List (String × WebACL)) (now : String) (s : ScanResult)
    (region : String) (resource_types : List ResourceType) : ScanResult :=
  resource_types.foldl (fun acc rt => scan_resource_type listRes waf_map now acc region rt) s

/-! ## Helper lemmas -/

/-- Lookup through a freshly consed binding. -/
theorem amLookup_cons (a : String) (c : WebACL) (m : List (String × WebACL)) (k : String) :
    amLookup ((a, c) :: m) k = if a = k then some c else amLookup m k := rfl

/-- `processAssociation` never removes a key. -/
theorem amLookup_isSome_processAssociation (m : List (String × WebACL))
    (a : String) (c : WebACL) (k : String)
    (h : (amLookup m k).isSome = true) :
    (amLookup (processAssociation m a c) k).isSome = true := by
  unfold processAssociation
  split
  · split
    · rw [amLookup_cons]
      split
      · simp
      · rw [amLookup_cons]
        split
        · simp
        · simpa using h
    · rw [amLookup_cons]
      split
      · simp
      · simpa using h
  · rw [amLookup_cons]
    split
    · simp
    · simpa using h

/-- Folding further association pairs never removes a key. -/
theorem amLookup_isSome_foldl (l : List (String × WebACL)) (m : List (String × WebACL))
    (k : String) (h : (amLookup m k).isSome = true) :
    (amLookup (l.foldl (fun m e => processAssociation m e.1 e.2) m) k).isSome = true := by
  induction l generalizing m with
  | nil => simpa using h
  | cons e rest ih =>
      exact ih _ (amLookup_isSome_processAssociation _ _ _ _ h)

/-- Effect of one stage-ARN association step: the stage key is bound
unconditionally, the parent key keeps an existing binding and is bound
to the incoming policy only when absent. -/
theorem processAssociation_stage_step (m : List (String × WebACL))
    (arn : String) (p : WebACL)
    (hr : pyContains arn "/restapis/" = true)
    (hs : pyContains arn "/stages/" = true) :
    amLookup (processAssociation m arn p) arn = some p ∧
      amLookup (processAssociation m arn p) (stageParent arn) =
        some ((amLookup ((arn, p) :: m) (stageParent arn)).getD p) := by
  unfold processAssociation
  rw [hr, hs]
  simp only [Bool.and_self, if_true]
  by_cases hk : (amLookup ((arn, p) :: m) (stageParent arn)).isNone
  · rw [if_pos hk]
    have hne : stageParent arn ≠ arn := by
      intro he
      rw [he] at hk
      simp [amLookup_cons] at hk
    constructor
    · rw [amLookup_cons, if_neg hne, amLookup_cons, if_pos rfl]
    · rw [amLookup_cons, if_pos rfl]
      rw [Option.isNone_iff_eq_none] at hk
      rw [hk]
      rfl
  · rw [if_neg hk]
    constructor
    · rw [amLookup_cons, if_pos rfl]
    · rcases ho : amLookup ((arn, p) :: m) (stageParent arn) with _ | q
      · rw [ho] at hk; simp at hk
      · simp [ho]

/-- After folding a pair list containing a stage pair, both the stage
key and its parent key are bound. -/
theorem both_keys_after_fold (l m : List (String × WebACL))
    (arn : String) (p : WebACL) (hmem : (arn, p) ∈ l)
    (hr : pyContains arn "/restapis/" = true)
    (hs : pyContains arn "/stages/" = true) :
    (amLookup (l.foldl (fun m e => processAssociation m e.1 e.2) m) arn).isSome = true ∧
      (amLookup (l.foldl (fun m e => processAssociation m e.1 e.2) m)
        (stageParent arn)).isSome = true := by
  induction l generalizing m with
  | nil => cases hmem
  | cons e rest ih =>
    rcases List.mem_cons.mp hmem with he | hrest
    · have step := processAssociation_stage_step m arn p hr hs
      rw [← he]
      constructor
      · exact amLookup_isSome_foldl rest _ arn (by rw [step.1]; rfl)
      · exact amLookup_isSome_foldl rest _ (stageParent arn) (by rw [step.2]; rfl)
    · exact ih _ hrest

/-- `addOrigin` keeps an S3-style key empty. -/
theorem addOrigin_preserves_empty (a i dd : String) (w : Option WebACL)
    (m : OriginsMap) (dom2 domain : String)
    (hs3 : isS3Origin domain = true) (h : m domain = []) :
    addOrigin a i dd w m dom2 domain = [] := by
  unfold addOrigin
  split
  · exact h
  · rename_i hns3
    by_cases he : domain = dom2
    · rw [he] at hs3
      simp [hs3] at hns3
    · simp only [if_neg he]
      exact h

/-- `processDistribution` keeps an S3-style key empty. -/
theorem processDistribution_preserves_empty (a : String) (m : OriginsMap)
    (d : DistSummary) (domain : String)
    (hs3 : isS3Origin domain = true) (h : m domain = []) :
    processDistribution a m d domain = [] := by
  unfold processDistribution
  generalize (if d.web_acl_id ≠ "" then parse_waf_arn d.web_acl_id else none) = w
  induction d.origins generalizing m with
  | nil => exact h
  | cons o rest ih =>
      exact ih _ (addOrigin_preserves_empty a d.dist_id d.dist_domain w m o domain hs3 h)

/-- Folding distributions keeps an S3-style key empty. -/
theorem fold_dists_preserves_empty (a : String) (dists : List DistSummary)
    (m : OriginsMap) (domain : String)
    (hs3 : isS3Origin domain = true) (h : m domain = []) :
    (dists.foldl (processDistribution a) m) domain = [] := by
  induction dists generalizing m with
  | nil => exact h
  | cons d rest ih =>
      exact ih _ (processDistribution_preserves_empty a m d domain hs3 h)

/-- `find?` selects the first policy-bearing entry of a fronting list. -/
theorem find?_first_policy (pre post : List OriginEntry) (cf : OriginEntry)
    (hpre : ∀ e ∈ pre, e.web_acl = none) (hcf : cf.web_acl.isSome = true) :
    (pre ++ cf :: post).find? (fun e => e.web_acl.isSome) = some cf := by
  induction pre with
  | nil => simp [List.find?_cons_of_pos, hcf]
  | cons a rest ih =>
      have ha : a.web_acl = none := hpre a (by simp)
      rw [List.cons_append, List.find?_cons_of_neg _ (by simp [ha])]
      exact ih (fun e he => hpre e (by simp [he]))

/-! ## Claim theorems -/

/-- C1: for every populated Resource, `get_compliance_status` agrees
with the reference compliance evaluator: COMPLIANT on a direct policy
(regardless of fronted-by fields), else COMPLIANT_FRONTED_BY_WAF on a
fronted-by policy, else NON_COMPLIANT exactly for a CDN distribution, a
publicly exposed load balancer, or a publicly exposed REST gateway,
else COMPLIANT_NO_WAF_REQUIRED (HTTP gateways unconditionally, and any
non-public load balancer or REST gateway). -/
theorem get_compliance_status_eq_ref (r : Resource) :
    r.get_compliance_status = complianceStatusRef r := by
  rcases r with ⟨arn, t, region, acct, name, wacl, fa, fw, fn, pub, tags, ts⟩
  cases wacl <;> cases fw <;> cases t <;> cases pub <;>
    simp [Resource.get_compliance_status, complianceStatusRef,
      Resource.is_compliant, Resource.has_waf]

/-- C1 witness: a concrete public REST gateway with no policy at all is
NON_COMPLIANT under both the code and the reference evaluator. -/
theorem get_compliance_status_eq_ref_witness :
    Resource.get_compliance_status
        { arn := "arn:aws:apigateway:us-east-1::/restapis/ABC"
        , resource_type := ResourceType.API_GATEWAY_REST
        , region := "us-east-1", account_id := "123", is_public := true } =
      complianceStatusRef
        { arn := "arn:aws:apigateway:us-east-1::/restapis/ABC"
        , resource_type := ResourceType.API_GATEWAY_REST
        , region := "us-east-1", account_id := "123", is_public := true } :=
  get_compliance_status_eq_ref _

/-- C2: a stage-ARN association pair yields both granularities. Per
step, the stage key is bound to the incoming policy unconditionally and
the parent key (truncation at the stage delimiter) keeps an existing
binding, receiving the incoming policy only when absent; and in the
whole built index, both the stage key and the parent key are present
whenever such a pair occurs in the regional input. -/
theorem stage_association_dual_mapping (arn : String) (p : WebACL)
    (hr : pyContains arn "/restapis/" = true)
    (hs : pyContains arn "/stages/" = true) :
    (∀ m, amLookup (processAssociation m arn p) arn = some p ∧
        amLookup (processAssociation m arn p) (stageParent arn) =
          some ((amLookup ((arn, p) :: m) (stageParent arn)).getD p)) ∧
      (∀ cloudfrontPairs regionalPairs : List (String × WebACL),
        (arn, p) ∈ regionalPairs →
          (amLookup (get_waf_associations_map cloudfrontPairs regionalPairs) arn).isSome
              = true ∧
            (amLookup (get_waf_associations_map cloudfrontPairs regionalPairs)
              (stageParent arn)).isSome = true) := by
  constructor
  · exact fun m => processAssociation_stage_step m arn p hr hs
  · intro cf reg hmem
    exact both_keys_after_fold reg _ arn p hmem hr hs

/-- C2 witness: the spec's stage-mapping example, evaluated on the
concrete input of one stage pair. -/
theorem stage_association_dual_mapping_witness :
    amLookup
        (get_waf_associations_map []
          [("arn:aws:apigateway:us-east-1::/restapis/ABC/stages/prod",
            { arn := "a1", name := "Policy1", id := "i1", scope := "REGIONAL", region := "us-east-1" })])
        "arn:aws:apigateway:us-east-1::/restapis/ABC/stages/prod" =
      some { arn := "a1", name := "Policy1", id := "i1", scope := "REGIONAL", region := "us-east-1" } ∧
    (amLookup
        (get_waf_associations_map []
          [("arn:aws:apigateway:us-east-1::/restapis/ABC/stages/prod",
            { arn := "a1", name := "Policy1", id := "i1", scope := "REGIONAL", region := "us-east-1" })])
        "arn:aws:apigateway:us-east-1::/restapis/ABC").isSome = true := by
  have h := stage_association_dual_mapping
    "arn:aws:apigateway:us-east-1::/restapis/ABC/stages/prod"
    { arn := "a1", name := "Policy1", id := "i1", scope := "REGIONAL", region := "us-east-1" }
    (by decide) (by decide)
  refine ⟨?_, ?_⟩
  · have h1 := (h.1 []).1
    simpa [get_waf_associations_map] using h1
  · have h2 := (h.2 [] [("arn:aws:apigateway:us-east-1::/restapis/ABC/stages/prod",
      { arn := "a1", name := "Policy1", id := "i1", scope := "REGIONAL", region := "us-east-1" })]
      (by simp)).2
    have hp : stageParent "arn:aws:apigateway:us-east-1::/restapis/ABC/stages/prod" =
        "arn:aws:apigateway:us-east-1::/restapis/ABC" := by decide
    rwa [hp] at h2

/-- C3: two stage pairs sharing a parent, processed first-to-second,
leave the parent key bound to the first policy (an existing parent
binding is never overwritten) while each stage key keeps its own
policy. -/
theorem parent_first_policy_wins (m0 : List (String × WebACL))
    (s1 s2 parent : String) (P1 P2 : WebACL)
    (hr1 : pyContains s1 "/restapis/" = true) (hs1 : pyContains s1 "/stages/" = true)
    (hr2 : pyContains s2 "/restapis/" = true) (hs2 : pyContains s2 "/stages/" = true)
    (hp1 : stageParent s1 = parent) (hp2 : stageParent s2 = parent)
    (hne : s1 ≠ s2) (hps1 : parent ≠ s1) (hps2 : parent ≠ s2)
    (habs : amLookup m0 parent = none) :
    amLookup ([(s1, P1), (s2, P2)].foldl (fun m e => processAssociation m e.1 e.2) m0)
        parent = some P1 ∧
      amLookup ([(s1, P1), (s2, P2)].foldl (fun m e => processAssociation m e.1 e.2) m0)
        s1 = some P1 ∧
      amLookup ([(s1, P1), (s2, P2)].foldl (fun m e => processAssociation m e.1 e.2) m0)
        s2 = some P2 := by
  have e1 : processAssociation m0 s1 P1 = (parent, P1) :: (s1, P1) :: m0 := by
    unfold processAssociation
    rw [hr1, hs1]
    simp only [Bool.and_self, if_true, hp1]
    rw [amLookup_cons, if_neg (Ne.symm hps1), habs]
    rfl
  have e2 : processAssociation ((parent, P1) :: (s1, P1) :: m0) s2 P2 =
      (s2, P2) :: (parent, P1) :: (s1, P1) :: m0 := by
    unfold processAssociation
    rw [hr2, hs2]
    simp only [Bool.and_self, if_true, hp2]
    rw [amLookup_cons, if_neg (Ne.symm hps2), amLookup_cons, if_pos rfl]
    rfl
  have efold : [(s1, P1), (s2, P2)].foldl (fun m e => processAssociation m e.1 e.2) m0 =
      (s2, P2) :: (parent, P1) :: (s1, P1) :: m0 := by
    simp only [List.foldl]
    rw [e1, e2]
  rw [efold]
  refine ⟨?_, ?_, ?_⟩
  · rw [amLookup_cons, if_neg (Ne.symm hps2), amLookup_cons, if_pos rfl]
  · rw [amLookup_cons, if_neg (Ne.symm hne), amLookup_cons, if_neg hps1,
      amLookup_cons, if_pos rfl]
  · rw [amLookup_cons, if_pos rfl]

/-- C3 witness: the spec's parent-level no-overwrite example with the
prod stage processed before the dev stage. -/
theorem parent_first_policy_wins_witness :
    amLookup
        ([("arn:aws:apigateway:us-east-1::/restapis/ABC/stages/prod",
            { arn := "a1", name := "Policy1", id := "i1", scope := "REGIONAL", region := "us-east-1" }),
          ("arn:aws:apigateway:us-east-1::/restapis/ABC/stages/dev",
            { arn := "a2", name := "Policy2", id := "i2", scope := "REGIONAL", region := "us-east-1" })].foldl
          (fun m e => processAssociation m e.1 e.2) [])
        "arn:aws:apigateway:us-east-1::/restapis/ABC" =
      some { arn := "a1", name := "Policy1", id := "i1", scope := "REGIONAL", region := "us-east-1" } := by
  have h := parent_first_policy_wins []
    "arn:aws:apigateway:us-east-1::/restapis/ABC/stages/prod"
    "arn:aws:apigateway:us-east-1::/restapis/ABC/stages/dev"
    "arn:aws:apigateway:us-east-1::/restapis/ABC"
    { arn := "a1", name := "Policy1", id := "i1", scope := "REGIONAL", region := "us-east-1" }
    { arn := "a2", name := "Policy2", id := "i2", scope := "REGIONAL", region := "us-east-1" }
    (by decide) (by decide) (by decide) (by decide) (by decide) (by decide)
    (by decide) (by decide) (by decide) rfl
  exact h.1

/-- C4: the fronted-by propagator applies per resource; a resource of a
non-frontable type, or one with a direct policy, is left untouched; an
eligible resource whose derived hostname has origin entries receives
the fronted-by triple of the first policy-bearing entry in list order;
and when no entry of the hostname's list carries a policy the resource
is left untouched (all three fronted-by fields remain as they were,
i.e. unset). -/
theorem fronted_by_propagation (albDns : String → String → Option String)
    (om : OriginsMap) (r : Resource) :
    (∀ s : ScanResult, (enrich_fronted_by_relationships albDns om s).resources =
        s.resources.map (enrichFrontedBy albDns om)) ∧
      (canBeFronted r.resource_type = false → enrichFrontedBy albDns om r = r) ∧
      (r.web_acl.isSome = true → enrichFrontedBy albDns om r = r) ∧
      (∀ (h : String) (pre post : List OriginEntry) (cf : OriginEntry) (w : WebACL),
        canBeFronted r.resource_type = true → r.web_acl = none →
        match_resource_to_origin albDns r = some h → h ≠ "" →
        om h = pre ++ cf :: post →
        (∀ e ∈ pre, e.web_acl = none) →
        cf.web_acl = some w →
        enrichFrontedBy albDns om r =
          { r with fronted_by_resource_arn := some cf.cloudfront_arn
                 , fronted_by_waf := some w
                 , fronted_by_notes := some (frontedByNote cf.cloudfront_arn w.name) }) ∧
      (∀ h : String,
        match_resource_to_origin albDns r = some h →
        (∀ e ∈ om h, e.web_acl = none) →
        enrichFrontedBy albDns om r = r) := by
  refine ⟨fun s => rfl, ?_, ?_, ?_, ?_⟩
  · intro hcf
    simp [enrichFrontedBy, hcf]
  · intro hw
    by_cases hcf : canBeFronted r.resource_type <;> simp [enrichFrontedBy, hcf, hw]
  · intro h pre post cf w hb hweb hm hne hom hpre hcfw
    have hfind : (om h).find? (fun e => e.web_acl.isSome) = some cf := by
      rw [hom]
      exact find?_first_policy pre post cf hpre (by simp [hcfw])
    have hemp : (om h).isEmpty = false := by
      rw [hom]; cases pre <;> rfl
    simp [enrichFrontedBy, hb, hweb, hm, hne, hemp, hfind, hcfw]
  · intro h hm hall
    by_cases hb : canBeFronted r.resource_type
    · by_cases hw : r.web_acl.isSome = true
      · simp [enrichFrontedBy, hb, hw]
      · have hfind : (om h).find? (fun e => e.web_acl.isSome) = none :=
          List.find?_eq_none.mpr (fun x hx => by simp [hall x hx])
        by_cases hh : h = ""
        · simp [enrichFrontedBy, hb, hw, hm, hh]
        · by_cases hemp : (om h).isEmpty = true
          · simp [enrichFrontedBy, hb, hw, hm, hh, hemp]
          · simp [enrichFrontedBy, hb, hw, hm, hh, hemp, hfind]
    · simp [enrichFrontedBy, hb]

/-- C4 witness: a concrete HTTP gateway fronted by two distributions,
the first unprotected and the second protected, picks up the second
distribution's policy and note. -/
theorem fronted_by_propagation_witness :
    enrichFrontedBy (fun _ _ => none)
        (fun k => if k = "abc123.execute-api.us-east-1.amazonaws.com" then
          [{ cloudfront_arn := "arn:aws:cloudfront::123:distribution/E0"
           , cloudfront_id := "E0", cloudfront_domain := "d0.cloudfront.net"
           , web_acl := none },
           { cloudfront_arn := "arn:aws:cloudfront::123:distribution/E1"
           , cloudfront_id := "E1", cloudfront_domain := "d1.cloudfront.net"
           , web_acl := some { arn := "wa", name := "MyWAF", id := "wid"
                             , scope := "CLOUDFRONT", region := "us-east-1" } }]
          else [])
        { arn := "arn:aws:apigateway:us-east-1::/apis/abc123"
        , resource_type := ResourceType.API_GATEWAY_HTTP
        , region := "us-east-1", account_id := "123" } =
      { arn := "arn:aws:apigateway:us-east-1::/apis/abc123"
      , resource_type := ResourceType.API_GATEWAY_HTTP
      , region := "us-east-1", account_id := "123"
      , fronted_by_resource_arn := some "arn:aws:cloudfront::123:distribution/E1"
      , fronted_by_waf := some { arn := "wa", name := "MyWAF", id := "wid"
                               , scope := "CLOUDFRONT", region := "us-east-1" }
      , fronted_by_notes :=
          some (frontedByNote "arn:aws:cloudfront::123:distribution/E1" "MyWAF") } := by
  exact (fronted_by_propagation (fun _ _ => none) _ _).2.2.2.1
    "abc123.execute-api.us-east-1.amazonaws.com"
    [{ cloudfront_arn := "arn:aws:cloudfront::123:distribution/E0"
     , cloudfront_id := "E0", cloudfront_domain := "d0.cloudfront.net"
     , web_acl := none }] []
    { cloudfront_arn := "arn:aws:cloudfront::123:distribution/E1"
    , cloudfront_id := "E1", cloudfront_domain := "d1.cloudfront.net"
    , web_acl := some { arn := "wa", name := "MyWAF", id := "wid"
                      , scope := "CLOUDFRONT", region := "us-east-1" } }
    { arn := "wa", name := "MyWAF", id := "wid", scope := "CLOUDFRONT", region := "us-east-1" }
    (by decide) rfl (by decide) (by decide) (by decide) (by decide) rfl

/-- C5: the compliance rate always lies in the interval from 0 to 100,
and on an empty resource list it is exactly 100 (vacuous pass, no
division error). -/
theorem compliance_rate_bounds (s : ScanResult) :
    0 ≤ s.get_compliance_rate ∧ s.get_compliance_rate ≤ 100 ∧
      (s.total_resources = 0 → s.get_compliance_rate = 100) := by
  unfold ScanResult.get_compliance_rate
  by_cases h : s.total_resources = 0
  · simp [h]
  · have h1 : 0 < s.total_resources := Nat.pos_of_ne_zero h
    have ht : (0 : ℚ) < (s.total_resources : ℚ) := by exact_mod_cast h1
    have hc : s.compliant_resources ≤ s.total_resources :=
      List.countP_le_length _
    have hdiv : ((s.compliant_resources : ℚ) / (s.total_resources : ℚ)) ≤ 1 :=
      (div_le_one ht).mpr (by exact_mod_cast hc)
    have hnn : (0 : ℚ) ≤ (s.compliant_resources : ℚ) / (s.total_resources : ℚ) :=
      div_nonneg (by positivity) ht.le
    refine ⟨?_, ?_, fun h0 => absurd h0 h⟩
    · simp [h]
      positivity
    · simp [h]
      nlinarith

/-- C5 witness: the empty scan result has compliance rate exactly 100. -/
theorem compliance_rate_bounds_witness :
    ({ account_id := "123" } : ScanResult).get_compliance_rate = 100 :=
  (compliance_rate_bounds { account_id := "123" }).2.2 rfl

/-- C6: no storage-service-style hostname (one containing `.s3.` or
`.s3-`) is ever a key of the built origin index, while any other
hostname has the distribution's entry appended to whatever entries it
already holds. -/
theorem s3_origins_never_indexed :
    (∀ (account_id : String) (dists : List DistSummary) (domain : String),
        isS3Origin domain = true →
          get_cloudfront_origins_map account_id dists domain = []) ∧
      (∀ (account_id dist_id dist_domain : String) (web_acl : Option WebACL)
          (m : OriginsMap) (domain : String),
        isS3Origin domain = false →
          addOrigin account_id dist_id dist_domain web_acl m domain domain =
            m domain ++
              [{ cloudfront_arn := "arn:aws:cloudfront::" ++ account_id ++ ":distribution/" ++ dist_id
               , cloudfront_id := dist_id
               , cloudfront_domain := dist_domain
               , web_acl := web_acl }]) := by
  constructor
  · intro account_id dists domain hs3
    exact fold_dists_preserves_empty account_id dists (fun _ => []) domain hs3 rfl
  · intro account_id dist_id dist_domain web_acl m domain hns3
    unfold addOrigin
    rw [if_neg (by simp [hns3])]
    simp

/-- C6 witness: an S3 origin of a concrete distribution is not indexed
while its sibling API origin receives an entry. -/
theorem s3_origins_never_indexed_witness :
    get_cloudfront_origins_map "123"
        [{ dist_id := "E1", dist_domain := "d.cloudfront.net", web_acl_id := ""
         , origins := ["bucket.s3.amazonaws.com", "api.example.com"] }]
        "bucket.s3.amazonaws.com" = [] ∧
      addOrigin "123" "E1" "d.cloudfront.net" none (fun _ => []) "api.example.com"
          "api.example.com" =
        [{ cloudfront_arn := "arn:aws:cloudfront::123:distribution/E1"
         , cloudfront_id := "E1", cloudfront_domain := "d.cloudfront.net"
         , web_acl := none }] := by
  constructor
  · exact s3_origins_never_indexed.1 "123" _ _ (by decide)
  · have h := s3_origins_never_indexed.2 "123" "E1" "d.cloudfront.net" none
      (fun _ => []) "api.example.com" (by decide)
    simpa using h

/-- C7: parsing a policy identifier either yields a policy whose scope
is CLOUDFRONT exactly when the scope segment (colon field 5) starts
with the global keyword and REGIONAL otherwise, or yields no policy;
and a distribution whose identifier is empty or fails to parse still
has its origin entries recorded, annotated with no policy. -/
theorem malformed_waf_arn_degrades :
    (∀ s : String,
        parse_waf_arn s = none ∨
          ∃ (w : WebACL) (scopeSeg : String),
            parse_waf_arn s = some w ∧
              (pySplit s ":").get? 5 = some scopeSeg ∧
              w.scope =
                (if pyStartsWith scopeSeg "global" then "CLOUDFRONT" else "REGIONAL")) ∧
      (∀ (account_id : String) (m : OriginsMap) (d : DistSummary),
        (d.web_acl_id = "" ∨ parse_waf_arn d.web_acl_id = none) →
          processDistribution account_id m d =
            d.origins.foldl (addOrigin account_id d.dist_id d.dist_domain none) m) := by
  constructor
  · intro s
    by_cases h3 : 3 ≤ (pySplit s "/").length
    · rcases h5 : (pySplit s ":").get? 5 with _ | scopeSeg
      · left
        unfold parse_waf_arn
        rw [if_pos h3, h5]
      · rcases h33 : (pySplit s ":").get? 3 with _ | region
        · left
          unfold parse_waf_arn
          rw [if_pos h3, h5, h33]
        · right
          have heq : parse_waf_arn s =
              some { arn := s
                   , name := (pySplit s "/").getD ((pySplit s "/").length - 2) ""
                   , id := (pySplit s "/").getLastD ""
                   , scope := if pyStartsWith scopeSeg "global" then "CLOUDFRONT" else "REGIONAL"
                   , region := region } := by
            unfold parse_waf_arn
            rw [if_pos h3, h5, h33]
          exact ⟨_, scopeSeg, heq, rfl, rfl⟩
    · left
      unfold parse_waf_arn
      rw [if_neg h3]
  · intro account_id m d hbad
    unfold processDistribution
    rcases hbad with he | hn
    · rw [if_neg (by simp [he])]
    · by_cases he : d.web_acl_id = ""
      · rw [if_neg (by simp [he])]
      · rw [if_pos (by simp [he]), hn]

/-- C7 witness: a concrete malformed identifier parses to no policy and
the distribution carrying it still contributes its origin entries with
no policy attached. -/
theorem malformed_waf_arn_degrades_witness :
    parse_waf_arn "not-a-valid-arn" = none ∧
      processDistribution "123" (fun _ => [])
          { dist_id := "E1", dist_domain := "d.cloudfront.net"
          , web_acl_id := "not-a-valid-arn", origins := ["api.example.com"] } =
        List.foldl (addOrigin "123" "E1" "d.cloudfront.net" none)
          (fun _ => []) ["api.example.com"] := by
  have hnone : parse_waf_arn "not-a-valid-arn" = none := by decide
  refine ⟨hnone, ?_⟩
  exact malformed_waf_arn_degrades.2 "123" (fun _ => [])
    { dist_id := "E1", dist_domain := "d.cloudfront.net"
    , web_acl_id := "not-a-valid-arn", origins := ["api.example.com"] }
    (Or.inr hnone)

/-- C8: when enumerating one resource-type/region pair fails
(and the pair is not the skipped non-us-east-1 CloudFront case), the
scan appends exactly one structured error record carrying the region,
the resource-type value, the message and the timestamp, leaves the
resource list unchanged, and region scanning over a concatenation of
type lists decomposes so the remaining pairs are still processed. -/
theorem enumeration_failure_isolated
    (listRes : ResourceType → String → Except String (List Resource))
    (waf_map : List (String × WebACL)) (now region : String) :
    (∀ (rt : ResourceType) (msg : String) (s : ScanResult),
        listRes rt region = Except.error msg →
        (rt = ResourceType.CLOUDFRONT && region ≠ "us-east-1") = false →
        scan_resource_type listRes waf_map now s region rt =
          { s with errors := s.errors ++
              [{ region := region, resource_type := some rt.value
               , message := msg, timestamp := now }] }) ∧
      (∀ (s : ScanResult) (rts1 rts2 : List ResourceType),
        scan_region listRes waf_map now s region (rts1 ++ rts2) =
          scan_region listRes waf_map now
            (scan_region listRes waf_map now s region rts1) region rts2) := by
  constructor
  · intro rt msg s hfail hguard
    unfold scan_resource_type
    rw [if_neg (fun hx => by rw [hx] at hguard; simp at hguard), hfail]
    rfl
  · intro s rts1 rts2
    unfold scan_region
    rw [List.foldl_append]

/-- C8 witness: a concrete failing ALB enumeration appends exactly its
structured error record and no resources. -/
theorem enumeration_failure_isolated_witness :
    scan_resource_type (fun _ _ => Except.error "AccessDenied") [] "t0"
        { account_id := "123" } "us-east-1" ResourceType.ALB =
      { account_id := "123"
      , errors := [{ region := "us-east-1"
                   , resource_type := some "APPLICATION_LOAD_BALANCER"
                   , message := "AccessDenied", timestamp := "t0" }] } := by
  have h := (enumeration_failure_isolated (fun _ _ => Except.error "AccessDenied")
    [] "t0" "us-east-1").1 ResourceType.ALB "AccessDenied"
    { account_id := "123" } rfl (by decide)
  simpa using h

/-- C9: the hostname deriver of the source equals the reference deriver
of the specification: apiId after the `/apis/` (resp. `/restapis/`)
marker with the `execute-api` hostname pattern for HTTP and REST
gateways, the out-of-band DNS lookup result for load balancers, and
none for every other resource type. -/
theorem hostname_deriver_eq_ref (albDns : String → String → Option String) (r : Resource) :
    match_resource_to_origin albDns r = deriveHostnameRef albDns r ∧
      (canBeFronted r.resource_type = false → match_resource_to_origin albDns r = none) := by
  constructor
  · cases h : r.resource_type <;>
      simp [match_resource_to_origin, deriveHostnameRef, h]
  · intro hcf
    cases h : r.resource_type <;>
      simp [h, canBeFronted] at hcf ⊢ <;>
      simp [match_resource_to_origin, h]

/-- C9 witness: a concrete identity-pool resource derives no hostname. -/
theorem hostname_deriver_eq_ref_witness :
    match_resource_to_origin (fun _ _ => none)
        { arn := "arn:aws:cognito-idp:us-east-1:123:userpool/p1"
        , resource_type := ResourceType.COGNITO
        , region := "us-east-1", account_id := "123" } = none :=
  (hostname_deriver_eq_ref (fun _ _ => none)
    { arn := "arn:aws:cognito-idp:us-east-1:123:userpool/p1"
    , resource_type := ResourceType.COGNITO
    , region := "us-east-1", account_id := "123" }).2 (by decide)

/-- C10: on an empty resource list the WAF coverage rate is 0 while the
compliance rate is 100 — the two empty-list defaults are asymmetric. -/
theorem empty_scan_rates (s : ScanResult) (h : s.resources = []) :
    s.get_waf_coverage_rate = 0 ∧ s.get_compliance_rate = 100 := by
  simp [ScanResult.get_waf_coverage_rate, ScanResult.get_compliance_rate,
    ScanResult.total_resources, h]

/-- C10 witness: the empty scan result evaluated concretely. -/
theorem empty_scan_rates_witness :
    ({ account_id := "123" } : ScanResult).get_waf_coverage_rate = 0 ∧
      ({ account_id := "123" } : ScanResult).get_compliance_rate = 100 :=
  empty_scan_rates { account_id := "123" } rfl
